import Mathlib

/-!
Verification of the sprite-generation core of `vite-plugin-svg-sprite`.

The repository contains two variants of the plugin: the current one in
`src/index.ts` and a legacy one (the unnamed compiled/older sources).  Both
are embedded below.  JavaScript strings are modelled as Lean `String`
(lists of characters); the node `path` library, the `svgo` optimizer and the
`cheerio` DOM library are external collaborators and are modelled by their
observable behaviour at the call sites used by the plugin:

* `path.parse`, `path.join`, `path.relative` are modelled for POSIX-style,
  `cwd`-relative paths free of `..` segments (the form produced by the
  plugin's own scanner from relative `iconDirs`); on such paths
  `path.relative(process.cwd(), d)` is the identity and the
  backslash-to-slash normalisation is the identity.
* the composition "readFile; svgo.optimize; cheerio.load; select svg" is
  modelled as a map from file path to `Option ParsedSvg` (`none` = the
  read/parse/optimize step threw, which the code catches per file);
* cheerio's attribute map is modelled as an insertion-ordered association
  list with first-occurrence update, which is its observable behaviour on
  the unique-key attribute objects it produces.
-/

/-- Association-list lookup (string keys): first binding wins, like a JS
`Map.get` / attribute object read. -/
def assocGet {α : Type} : List (String × α) → String → Option α
  | [], _ => none
  | (k', v) :: rest, k => if k' == k then some v else assocGet rest k

/-- Association-list update: overwrite the first binding of the key in
place, else append at the end — the observable behaviour of a JS `Map.set`
and of cheerio's `attr(key, value)`. -/
def assocSet {α : Type} : List (String × α) → String → α → List (String × α)
  | [], k, v => [(k, v)]
  | (k', v') :: rest, k, v =>
    if k' == k then (k, v) :: rest else (k', v') :: assocSet rest k v

/-- Character-list core of JavaScript `String.prototype.replace` with a
string pattern: only the first occurrence is replaced; an empty pattern
matches at position 0. -/
def chReplaceFirst : List Char → List Char → List Char → List Char
  | [], pat, rep => if pat.isEmpty then rep else []
  | c :: rest, pat, rep =>
    if pat.isPrefixOf (c :: rest) then rep ++ (c :: rest).drop pat.length
    else c :: chReplaceFirst rest pat rep

/-- JavaScript `s.replace(pat, rep)` for plain string patterns (first
occurrence only). -/
def replaceFirst (s pat rep : String) : String :=
  ⟨chReplaceFirst s.data pat.data rep.data⟩

/-- Character-list substring search: does `pat` occur contiguously in the
first argument? -/
def chContainsSub : List Char → List Char → Bool
  | [], pat => pat.isEmpty
  | c :: rest, pat => pat.isPrefixOf (c :: rest) || chContainsSub rest pat

/-- JavaScript `s.includes(pat)`. -/
def jsIncludes (s pat : String) : Bool :=
  chContainsSub s.data pat.data

/-- JavaScript `s.endsWith(pat)`. -/
def jsEndsWith (s pat : String) : Bool :=
  List.isSuffixOf pat.data s.data

/-- JavaScript whitespace test used by `String.prototype.trim` (restricted
to the ASCII whitespace characters relevant here). -/
def isJsSpace (c : Char) : Bool :=
  (c == ' ') || (c == '\t') || (c == '\n') || (c == '\r') ||
    (c == '\x0b') || (c == '\x0c')

/-- JavaScript `s.trim()`: strip leading and trailing whitespace. -/
def jsTrim (s : String) : String :=
  ⟨((s.data.dropWhile isJsSpace).reverse.dropWhile isJsSpace).reverse⟩

/-- Node `path.join(a, b)` for non-empty relative segments. -/
def jsPathJoin (a b : String) : String :=
  a ++ "/" ++ b

/-- Character-list splitter for JavaScript `s.split(sep)` with a one
character separator. -/
def chSplit (sep : Char) : List Char → List Char → List (List Char)
  | [], acc => [acc.reverse]
  | c :: rest, acc =>
    if c == sep then acc.reverse :: chSplit sep rest []
    else chSplit sep rest (c :: acc)

/-- JavaScript `s.split('/')`. -/
def jsSplitSlash (s : String) : List String :=
  (chSplit '/' s.data []).map (fun l => ⟨l⟩)

/-- Node `path.parse(p).dir` for relative POSIX paths: everything before
the last slash (empty when the path has no slash). -/
def jsPathParseDir (p : String) : String :=
  ⟨((p.data.reverse.dropWhile (fun c => c != '/')).reverse).dropLast⟩

/-- Node `path.parse(p).base`: everything after the last slash. -/
def jsPathParseBase (p : String) : String :=
  ⟨(p.data.reverse.takeWhile (fun c => c != '/')).reverse⟩

/-- Node `path.parse(p).name` applied to a base name: strip the final
extension, keeping a leading dot-only name intact. -/
def jsNameNoExt (file : String) : String :=
  match (file.data.reverse).findIdx? (fun c => c == '.') with
  | none => file
  | some i =>
    let pos := file.data.length - 1 - i
    if pos == 0 then file else ⟨file.data.take pos⟩

/-- `generateSymbolId` from `src/index.ts` (identical in the legacy
variant): parse the path, take the base name of the containing directory
relative to the cwd (`split('/').pop() || ''`), and substitute the
`[dir]` and `[name]` tokens of the template (first occurrence each, as JS
`replace` does). -/
def generateSymbolId (symbolId filePath : String) : String :=
  let dir := jsPathParseDir filePath
  let name := jsNameNoExt (jsPathParseBase filePath)
  let relativeDir := dir
  let dirName := ((jsSplitSlash relativeDir).getLast?.getD "")
  replaceFirst (replaceFirst symbolId "[dir]" dirName) "[name]" name

/-- The options record accepted by both plugin factories
(`SvgSpritePluginOptions`); optional fields are `Option`s, defaults are
applied during construction. The opaque `svgoConfig` object is omitted:
no verified claim depends on its value. -/
structure SvgSpritePluginOptions where
  iconDirs : List String
  symbolId : Option String
  svgDomId : Option String
  inject : Option String
  fileName : Option String
  verbose : Option Bool
deriving Repr, DecidableEq

/-- The resolved configuration held by a successfully constructed plugin
instance. -/
structure Config where
  iconDirs : List String
  symbolId : String
  svgDomId : String
  inject : Option String
  fileName : Option String
  verbose : Bool
deriving Repr, DecidableEq

/-- Construction-time validation of `svgSpritePlugin` in `src/index.ts`:
defaults are destructured, then the only synchronous check is that the
naming template contains `[name]`.  Construction performs no file I/O —
it is pure option validation (the first filesystem access happens later,
in the `configResolved` hook). -/
def svgSpritePlugin (o : SvgSpritePluginOptions) : Except String Config :=
  let symbolId := o.symbolId.getD "[dir]-[name]"
  let svgDomId := o.svgDomId.getD "svg-sprite"
  let verbose := o.verbose.getD true
  if jsIncludes symbolId "[name]" = false then
    Except.error "SymbolId must contain [name] string!"
  else
    Except.ok
      { iconDirs := o.iconDirs, symbolId := symbolId, svgDomId := svgDomId,
        inject := o.inject, fileName := o.fileName, verbose := verbose }

/-- Construction-time validation of the legacy variant
(`src/unnamed/part_000`, lines 30–36): the template check, followed by the
requirement that at least one of `inject` / `fileName` is supplied. -/
def svgSpritePluginLegacy (o : SvgSpritePluginOptions) : Except String Config :=
  let symbolId := o.symbolId.getD "[dir]-[name]"
  let svgDomId := o.svgDomId.getD "svg-sprite"
  if jsIncludes symbolId "[name]" = false then
    Except.error "SymbolId must contain [name] string!"
  else if o.inject = none ∧ o.fileName = none then
    Except.error "Inject or fileName must be provided!"
  else
    Except.ok
      { iconDirs := o.iconDirs, symbolId := symbolId, svgDomId := svgDomId,
        inject := o.inject, fileName := o.fileName, verbose := true }

/-- Boolean success test for an `Except`-valued construction. -/
def constructionOk (e : Except String Config) : Bool :=
  match e with
  | Except.ok _ => true
  | Except.error _ => false

mutual
/-- A directory entry as seen through `fs.readdirSync` + `fs.lstatSync`:
a plain file, a symbolic link (whose recorded target is a path string;
`lstat` reports it as a non-directory), or a directory with its own
listing. -/
inductive FsTree where
  | file (name : String)
  | symlink (name target : String)
  | dir (name : String) (children : FsForest)

/-- A directory listing, in `readdirSync` order. -/
inductive FsForest where
  | nil
  | cons (t : FsTree) (ts : FsForest)
end

/-- `scanDirForSvgFiles` from `src/index.ts` lines 91–107, acting on the
modelled listing: for each entry `lstat` is consulted — only a real
directory recurses; any non-directory entry (plain file or symbolic link,
since `lstat` does not follow links) whose name ends in `.svg` is
collected as `path.join(dir, file)`. -/
def scanDirForSvgFiles (dirPath : String) : FsForest → List String
  | FsForest.nil => []
  | FsForest.cons (FsTree.file name) rest =>
    (if jsEndsWith name ".svg" then [jsPathJoin dirPath name] else []) ++
      scanDirForSvgFiles dirPath rest
  | FsForest.cons (FsTree.symlink name _) rest =>
    (if jsEndsWith name ".svg" then [jsPathJoin dirPath name] else []) ++
      scanDirForSvgFiles dirPath rest
  | FsForest.cons (FsTree.dir name children) rest =>
    scanDirForSvgFiles (jsPathJoin dirPath name) children ++
      scanDirForSvgFiles dirPath rest

example : generateSymbolId "[dir]-[name]" "icons/nav/home.svg" = "nav-home" := by decide

example :
    scanDirForSvgFiles "icons"
        (FsForest.cons (FsTree.dir "nav" (FsForest.cons (FsTree.file "home.svg") FsForest.nil))
          FsForest.nil) =
      ["icons/nav/home.svg"] := by decide

/-- A log line on the plugin's logging channel (`log` object,
`src/index.ts` lines 76–82): `info` and `success` are emitted only when
`verbose` is set; `warn` and `error` are emitted unconditionally. -/
inductive LogEvent where
  | info (msg : String)
  | warn (msg : String)
  | error (msg : String)
  | success (msg : String)
deriving Repr, DecidableEq

/-- `log.info`: gated on the `verbose` flag. -/
def logInfo (verbose : Bool) (logs : List LogEvent) (msg : String) : List LogEvent :=
  if verbose then logs ++ [LogEvent.info msg] else logs

/-- `log.warn`: emitted regardless of the `verbose` flag. -/
def logWarn (logs : List LogEvent) (msg : String) : List LogEvent :=
  logs ++ [LogEvent.warn msg]

/-- `log.error`: emitted regardless of the `verbose` flag. -/
def logError (logs : List LogEvent) (msg : String) : List LogEvent :=
  logs ++ [LogEvent.error msg]

/-- The result of `cheerio.load(optimizedSvg, xmlMode).('svg')` on one
optimized icon: the root element's attribute map (insertion ordered,
unique keys), the serialized child markup of the root (the markup moved
into the symbol by `$symbol.append($svg.children())`), and the inner
markup of the root's `defs` element as `$svg.find('defs').html()` reports
it at that point in the code (`none` when no `defs` is found). -/
structure ParsedSvg where
  attrs : List (String × String)
  childrenHtml : String
  defsHtml : Option String
deriving Repr, DecidableEq

/-- A constructed `<symbol>` element: attribute map plus child markup. -/
structure SymbolEl where
  attrs : List (String × String)
  childrenHtml : String
deriving Repr, DecidableEq

/-- One iteration of the attribute-copy loop (`src/index.ts` lines
136–141): copy the attribute unless its key is `width` or `height`. -/
def copyAttrsStep (acc : List (String × String)) (kv : String × String) :
    List (String × String) :=
  if kv.1 ≠ "width" ∧ kv.1 ≠ "height" then assocSet acc kv.1 kv.2 else acc

/-- Symbol construction from `src/index.ts` lines 131–143: set `id` to the
generated identifier and `viewBox` to the source root's viewBox (or the
`0 0 24 24` fallback), then copy every attribute of the source root except
`width` and `height` (overwriting on key collision, as `attr` does), and
take over the root's children. -/
def buildSymbol (symbolId filePath : String) (svg : ParsedSvg) : SymbolEl :=
  let viewBox := (assocGet svg.attrs "viewBox").getD "0 0 24 24"
  let a0 := assocSet (assocSet [] "id" (generateSymbolId symbolId filePath)) "viewBox" viewBox
  let a1 := svg.attrs.foldl copyAttrsStep a0
  { attrs := a1, childrenHtml := svg.childrenHtml }

/-- XML serialization of an attribute map, in insertion order. -/
def attrsToString (attrs : List (String × String)) : String :=
  attrs.foldl (fun acc kv => acc ++ " " ++ kv.1 ++ "=\"" ++ kv.2 ++ "\"") ""

/-- `$.html($symbol)`: serialize the constructed symbol element. -/
def serializeSymbol (s : SymbolEl) : String :=
  "<symbol" ++ attrsToString s.attrs ++ ">" ++ s.childrenHtml ++ "</symbol>"

/-- The mutable plugin state threaded through generation passes: the
Sprite Cache (`svgCache`, path-keyed), the Definitions Pool
(`collectedDefs`) and the emitted log events. -/
structure GenState where
  svgCache : List (String × String)
  collectedDefs : String
  logs : List LogEvent
deriving Repr, DecidableEq

/-- The plugin's view of the icon filesystem: a listing tree per icon
root (as `readdirSync`/`lstatSync` would reveal it) and, per file path,
the combined result of `readFile` + `svgo.optimize` + `cheerio.load`
(`none` when that per-file pipeline throws; the code catches this). -/
structure IconFs where
  listing : List (String × FsForest)
  read : String → Option ParsedSvg

/-- All icon files of a pass: each configured root is scanned and the
per-root lists are concatenated in configuration order (the stable
traversal order assumed by the determinism claims). -/
def allSvgFiles (cfg : Config) (fs : IconFs) : List String :=
  (cfg.iconDirs.map (fun d => scanDirForSvgFiles d ((assocGet fs.listing d).getD FsForest.nil))).flatten

/-- Per-file step of `generateSvgSprite` (`src/index.ts` lines 116–160),
acting on `(state, svgSymbols)`: a failed read/parse is logged and skipped;
a cache hit appends the cached fragment to `svgSymbols`; a cache miss
builds the symbol, appends any found defs markup to the Definitions Pool,
stores the serialized fragment under the file path, and appends it. -/
def processFile (cfg : Config) (fs : IconFs) (acc : GenState × String) (filePath : String) :
    GenState × String :=
  let st := acc.1
  let syms := acc.2
  match fs.read filePath with
  | none =>
    ({ st with logs := logError st.logs ("Error reading or processing SVG file: " ++ filePath) },
      syms)
  | some svg =>
    match assocGet st.svgCache filePath with
    | some frag => (st, syms ++ frag)
    | none =>
      let frag := serializeSymbol (buildSymbol cfg.symbolId filePath svg)
      let defs2 := match svg.defsHtml with
        | some d => st.collectedDefs ++ d
        | none => st.collectedDefs
      ({ st with svgCache := st.svgCache ++ [(filePath, frag)], collectedDefs := defs2 },
        syms ++ frag)

/-- The file loop of `generateSvgSprite`: fold the per-file step over all
discovered files in traversal order, accumulating `svgSymbols` from the
empty string. -/
def genPass (cfg : Config) (fs : IconFs) (st0 : GenState) : GenState × String :=
  (allSvgFiles cfg fs).foldl (processFile cfg fs) (st0, "")

/-- The hiding style of the root container (`src/index.ts` line 165). -/
def spriteStyle : String := "position:absolute;width:0;height:0;"

/-- The opening tag of the sprite root container. -/
def spriteHeader (svgDomId : String) : String :=
  "<svg xmlns=\"http://www.w3.org/2000/svg\" style=\"" ++ spriteStyle ++ "\" id=\"" ++
    svgDomId ++ "\">"

/-- Final document assembly (`src/index.ts` lines 165–175): when symbols
were produced, the Definitions Pool (if non-empty) is wrapped in `<defs>`
and placed before them; otherwise a warning is logged and an empty
container is produced. -/
def generateSvgSprite (cfg : Config) (fs : IconFs) (st0 : GenState) : GenState × String :=
  let r := genPass cfg fs st0
  let st1 := r.1
  let svgSymbols := r.2
  if svgSymbols = "" then
    ({ st1 with logs := logWarn st1.logs "No SVG symbols were generated." },
      spriteHeader cfg.svgDomId ++ "</svg>")
  else
    let defsContent :=
      if st1.collectedDefs = "" then "" else "<defs>" ++ st1.collectedDefs ++ "</defs>"
    (st1, spriteHeader cfg.svgDomId ++ defsContent ++ svgSymbols ++ "</svg>")

/-- The on-disk state visible to the persistence step: the set of existing
directories and a path-keyed map of file contents. -/
structure DiskFs where
  dirs : List String
  files : List (String × String)
deriving Repr, DecidableEq

/-- Every ancestor directory created by `fs.mkdirSync(dir, recursive)` for
a relative POSIX directory path: all slash-separated prefixes. -/
def dirPrefixes (dir : String) : List String :=
  let segs := jsSplitSlash dir
  (List.range segs.length).map (fun i => String.intercalate "/" (segs.take (i + 1)))

/-- `fs.mkdirSync(publicDir, recursive := true)` on the modelled disk. -/
def mkdirRecursive (fs : DiskFs) (dir : String) : DiskFs :=
  { fs with dirs := fs.dirs ++ (dirPrefixes dir).filter (fun d => ¬ d ∈ fs.dirs) }

/-- Outcome of one persistence call. -/
inductive WriteOutcome where
  | skipped
  | wrote
  | failed
deriving Repr, DecidableEq

/-- `writeSpriteToFile` from `src/index.ts` lines 178–201: normalize the
content to `trim() + '\n'`; if the destination already holds exactly that
content, return without touching the disk; otherwise create the
destination directory recursively and write the file.  A thrown
mkdir/write error (modelled by the `writeFails` oracle) is caught and
logged — the function always returns normally. -/
def writeSpriteToFile (writeFails verbose : Bool) (disk : DiskFs)
    (publicDir fileName spriteContent : String) : DiskFs × List LogEvent × WriteOutcome :=
  let fullPath := jsPathJoin publicDir fileName
  let finalSpriteContent := jsTrim spriteContent ++ "\n"
  match assocGet disk.files fullPath with
  | some existingContent =>
    if existingContent = finalSpriteContent then
      (disk, logInfo verbose [] ("SVG sprite already exists in " ++ publicDir),
        WriteOutcome.skipped)
    else if writeFails then
      (disk, logError [] ("Error writing sprite file: " ++ fullPath), WriteOutcome.failed)
    else
      ({ mkdirRecursive disk publicDir with
          files := assocSet (mkdirRecursive disk publicDir).files fullPath finalSpriteContent },
        logInfo verbose [] ("SVG sprite saved in " ++ publicDir), WriteOutcome.wrote)
  | none =>
    if writeFails then
      (disk, logError [] ("Error writing sprite file: " ++ fullPath), WriteOutcome.failed)
    else
      ({ mkdirRecursive disk publicDir with
          files := assocSet (mkdirRecursive disk publicDir).files fullPath finalSpriteContent },
        logInfo verbose [] ("SVG sprite saved in " ++ publicDir), WriteOutcome.wrote)

/-- State of one development session (`configureServer`): the generation
state, the current sprite document (the module-level `spriteContent`),
and counters for completed regenerations and emitted `full-reload`
notifications. -/
structure SessionState where
  gen : GenState
  sprite : String
  regenerations : Nat
  reloads : Nat
deriving Repr, DecidableEq

/-- `handleDevChange` from `src/index.ts` lines 296–315: clear the entire
Sprite Cache and the Definitions Pool, regenerate the sprite from the
current filesystem, and — when the virtual module is present in the
module graph (`modPresent`) — invalidate it and send exactly one
`full-reload` notification. -/
def handleDevChange (cfg : Config) (fs : IconFs) (modPresent : Bool)
    (s : SessionState) : SessionState :=
  let cleared : GenState := { svgCache := [], collectedDefs := "", logs := s.gen.logs }
  let r := generateSvgSprite cfg fs cleared
  { gen := r.1, sprite := r.2, regenerations := s.regenerations + 1,
    reloads := s.reloads + (if modPresent then 1 else 0) }

/-- Debounce semantics of `clearTimeout` + `setTimeout(handler, delay)`
over a sorted list of qualifying event times: a pending timer survives
only if the next event arrives no earlier than `delay` after the one that
armed it, so the handler fires once per maximal burst. -/
def debounceCount (delay : Nat) : List Nat → Nat
  | [] => 0
  | [_] => 1
  | a :: b :: rest => (if b - a < delay then 0 else 1) + debounceCount delay (b :: rest)

/-- Run `n` debounced handler firings in sequence. -/
def runHandlers (cfg : Config) (fs : IconFs) (modPresent : Bool) :
    Nat → SessionState → SessionState
  | 0, s => s
  | n + 1, s => runHandlers cfg fs modPresent n (handleDevChange cfg fs modPresent s)

/-- One watch session over a burst of qualifying `.svg` events at the given
times: the handler fires once per debounced group. -/
def runDevSession (cfg : Config) (fs : IconFs) (modPresent : Bool)
    (eventTimes : List Nat) (s0 : SessionState) : SessionState :=
  runHandlers cfg fs modPresent (debounceCount 100 eventTimes) s0

/-- Adjacent-gap test for a sorted burst of event times: every event
follows its predecessor in strictly less than `delay` time units, so no
pending debounce timer ever expires inside the burst. -/
def burstWithin (delay : Nat) : List Nat → Bool
  | [] => true
  | [_] => true
  | a :: b :: rest => if b - a < delay then burstWithin delay (b :: rest) else false

theorem assocGet_set_same {α : Type} :
    ∀ (l : List (String × α)) (k : String) (v : α), assocGet (assocSet l k v) k = some v
  | [], k, v => by simp [assocGet, assocSet]
  | (k', v') :: rest, k, v => by
    by_cases h : k' = k
    · simp [assocSet, assocGet, h]
    · have hb : (k' == k) = false := by simp [h]
      simp [assocSet, assocGet, hb, assocGet_set_same rest k v]

theorem assocGet_set_other {α : Type} :
    ∀ (l : List (String × α)) (k k2 : String) (v : α),
      k2 ≠ k → assocGet (assocSet l k v) k2 = assocGet l k2
  | [], k, k2, v, h => by
    have hb : (k == k2) = false := by simp; exact fun he => h he.symm
    simp [assocGet, assocSet, hb]
  | (k', v') :: rest, k, k2, v, h => by
    by_cases h1 : k' = k
    · have hb : (k == k2) = false := by simp; exact fun he => h he.symm
      have hb' : (k' == k2) = false := by simp [h1]; exact fun he => h he.symm
      simp [assocSet, assocGet, h1, hb, hb']
    · have hb1 : (k' == k) = false := by simp [h1]
      by_cases h2 : k' = k2
      · subst h2
        simp [assocSet, assocGet, hb1]
      · have hb2 : (k' == k2) = false := by simp [h2]
        simp [assocSet, assocGet, hb1, hb2, assocGet_set_other rest k k2 v h]

theorem assocGet_append_some {α : Type} :
    ∀ (l l2 : List (String × α)) (k : String) (v : α),
      assocGet l k = some v → assocGet (l ++ l2) k = some v
  | [], _, _, _, h => by simp [assocGet] at h
  | (k', v') :: rest, l2, k, v, h => by
    by_cases hk : k' = k
    · simp [assocGet, hk] at h ⊢; exact h
    · have hb : (k' == k) = false := by simp [hk]
      simp [assocGet, hb] at h ⊢
      exact assocGet_append_some rest l2 k v h

theorem assocGet_append_none {α : Type} :
    ∀ (l l2 : List (String × α)) (k : String),
      assocGet l k = none → assocGet (l ++ l2) k = assocGet l2 k
  | [], _, _, _ => by simp [assocGet]
  | (k', v') :: rest, l2, k, h => by
    by_cases hk : k' = k
    · simp [assocGet, hk] at h
    · have hb : (k' == k) = false := by simp [hk]
      simp [assocGet, hb] at h ⊢
      exact assocGet_append_none rest l2 k h

theorem assocGet_none_not_mem {α : Type} :
    ∀ (l : List (String × α)) (k : String),
      assocGet l k = none → k ∉ l.map Prod.fst
  | [], _, _ => by simp
  | (k', v') :: rest, k, h => by
    by_cases hk : k' = k
    · simp [assocGet, hk] at h
    · have hb : (k' == k) = false := by simp [hk]
      simp [assocGet, hb] at h
      simp [hk, assocGet_none_not_mem rest k h]
      exact fun he => hk he.symm

theorem takeWhile_of_all {p : Char → Bool} :
    ∀ (l : List Char), (∀ c ∈ l, p c = true) → l.takeWhile p = l
  | [], _ => rfl
  | c :: rest, h => by
    have hc : p c = true := h c (by simp)
    rw [List.takeWhile_cons, if_pos hc,
      takeWhile_of_all rest (fun d hd => h d (by simp [hd]))]

theorem dropWhile_of_all {p : Char → Bool} :
    ∀ (l : List Char), (∀ c ∈ l, p c = true) → l.dropWhile p = []
  | [], _ => rfl
  | c :: rest, h => by
    have hc : p c = true := h c (by simp)
    rw [List.dropWhile_cons, if_pos hc]
    exact dropWhile_of_all rest (fun d hd => h d (by simp [hd]))

theorem head?_dropWhile_false {p : Char → Bool} :
    ∀ (l : List Char) (c : Char), (l.dropWhile p).head? = some c → p c = false
  | [], c, h => by simp at h
  | x :: xs, c, h => by
    by_cases hx : p x = true
    · rw [List.dropWhile_cons, if_pos hx] at h
      exact head?_dropWhile_false xs c h
    · rw [List.dropWhile_cons, if_neg hx] at h
      have hxc : x = c := by simpa using h
      subst hxc
      cases hpb : p x
      · rfl
      · exact absurd hpb hx

/-- Options with neither an injection position nor an output file name
(and everything else defaulted). -/
def c2Options : SvgSpritePluginOptions :=
  { iconDirs := ["icons"], symbolId := none, svgDomId := none, inject := none,
    fileName := none, verbose := none }

/-- C2 counterexample: in the current main variant (`src/index.ts`),
construction with neither `inject` nor `fileName` succeeds — there is no
delivery-mechanism check there (only the legacy variant has one), so the
claim that plugin construction always fails in this situation is false. -/
theorem svgSpritePlugin_no_delivery_check_counterexample :
    c2Options.inject = none ∧ c2Options.fileName = none ∧
      constructionOk (svgSpritePlugin c2Options) = true := by decide

/-- C2 (amended): only the legacy plugin variant rejects a configuration
that supplies neither `inject` nor `fileName`; the current main variant
accepts it (the sprite then remains reachable through the virtual module
only). -/
theorem svgSpritePluginLegacy_requires_delivery (o : SvgSpritePluginOptions)
    (hi : o.inject = none) (hf : o.fileName = none)
    (hs : jsIncludes (o.symbolId.getD "[dir]-[name]") "[name]" = true) :
    svgSpritePluginLegacy o = Except.error "Inject or fileName must be provided!" ∧
      constructionOk (svgSpritePlugin o) = true := by
  constructor
  · simp [svgSpritePluginLegacy, hs, hi, hf]
  · simp [svgSpritePlugin, hs, constructionOk]

/-- Witness for the amended C2 statement at a concrete configuration. -/
theorem svgSpritePluginLegacy_requires_delivery_witness :
    svgSpritePluginLegacy c2Options = Except.error "Inject or fileName must be provided!" ∧
      constructionOk (svgSpritePlugin c2Options) = true :=
  svgSpritePluginLegacy_requires_delivery c2Options rfl rfl (by decide)

/-- C5: both plugin factories throw the descriptive template error, and
nothing else, purely as a function of whether the supplied naming template
contains `[name]` — construction is pure option validation and performs
no file I/O (the embedding of construction takes no filesystem at all). -/
theorem svgSpritePlugin_template_check (o : SvgSpritePluginOptions) (tmpl : String)
    (h : o.symbolId = some tmpl) :
    (jsIncludes tmpl "[name]" = false →
      svgSpritePlugin o = Except.error "SymbolId must contain [name] string!" ∧
        svgSpritePluginLegacy o = Except.error "SymbolId must contain [name] string!") ∧
    (jsIncludes tmpl "[name]" = true →
      constructionOk (svgSpritePlugin o) = true ∧
        svgSpritePluginLegacy o ≠ Except.error "SymbolId must contain [name] string!") := by
  constructor
  · intro hf
    constructor
    · simp [svgSpritePlugin, h, hf]
    · simp [svgSpritePluginLegacy, h, hf]
  · intro ht
    constructor
    · simp [svgSpritePlugin, h, ht, constructionOk]
    · simp only [svgSpritePluginLegacy, h, Option.getD_some, ht]
      split
      · simp at *
      · split
        · intro hcon
          simp at hcon
        · intro hcon
          simp at hcon

/-- Template without the `[name]` placeholder. -/
def c5BadOptions : SvgSpritePluginOptions :=
  { iconDirs := ["icons"], symbolId := some "icon-[dir]", svgDomId := none,
    inject := some "body-last", fileName := none, verbose := none }

/-- Template with the `[name]` placeholder. -/
def c5GoodOptions : SvgSpritePluginOptions :=
  { iconDirs := ["icons"], symbolId := some "x-[name]", svgDomId := none,
    inject := some "body-last", fileName := none, verbose := none }

/-- Witness for C5 at concrete templates on both sides of the check. -/
theorem svgSpritePlugin_template_check_witness :
    (svgSpritePlugin c5BadOptions = Except.error "SymbolId must contain [name] string!" ∧
      svgSpritePluginLegacy c5BadOptions = Except.error "SymbolId must contain [name] string!") ∧
    (constructionOk (svgSpritePlugin c5GoodOptions) = true ∧
      svgSpritePluginLegacy c5GoodOptions ≠
        Except.error "SymbolId must contain [name] string!") :=
  ⟨(svgSpritePlugin_template_check c5BadOptions "icon-[dir]" rfl).1 (by decide),
    (svgSpritePlugin_template_check c5GoodOptions "x-[name]" rfl).2 (by decide)⟩

/-- C6: the generated identifiers for the spec's example paths, and the
empty-directory-segment behaviour: for a file directly under the cwd the
`[dir]` token is substituted by the empty string (no error is possible —
identifier generation is a total function). -/
theorem generateSymbolId_spec :
    generateSymbolId "[dir]-[name]" "icons/nav/home.svg" = "nav-home" ∧
    generateSymbolId "[dir]-[name]" "icons/nav/settings.svg" = "nav-settings" ∧
    (∀ (tmpl f : String), (∀ c ∈ f.data, (c != '/') = true) →
      generateSymbolId tmpl f =
        replaceFirst (replaceFirst tmpl "[dir]" "") "[name]" (jsNameNoExt f)) := by
  refine ⟨by decide, by decide, ?_⟩
  intro tmpl f h
  have hdir : jsPathParseDir f = "" := by
    unfold jsPathParseDir
    rw [dropWhile_of_all (p := fun c => c != '/') f.data.reverse
      (fun c hc => h c (List.mem_reverse.mp hc))]
    rfl
  have hbase : jsPathParseBase f = f := by
    unfold jsPathParseBase
    rw [takeWhile_of_all (p := fun c => c != '/') f.data.reverse
      (fun c hc => h c (List.mem_reverse.mp hc))]
    rw [List.reverse_reverse]
  have hsplit : ((jsSplitSlash "").getLast?.getD "") = "" := by decide
  simp only [generateSymbolId]
  rw [hdir, hbase, hsplit]

/-- Witness for C6's empty-directory-segment case. -/
theorem generateSymbolId_spec_witness :
    generateSymbolId "[dir]-[name]" "home.svg" =
      replaceFirst (replaceFirst "[dir]-[name]" "[dir]" "") "[name]" (jsNameNoExt "home.svg") :=
  generateSymbolId_spec.2.2 "[dir]-[name]" "home.svg" (by decide)

/-- Replace every symbolic-link entry by a plain file of the same name,
dropping the link target (and everything reachable through it). -/
def pruneSymlinks : FsForest → FsForest
  | FsForest.nil => FsForest.nil
  | FsForest.cons (FsTree.file n) ts => FsForest.cons (FsTree.file n) (pruneSymlinks ts)
  | FsForest.cons (FsTree.symlink n _) ts => FsForest.cons (FsTree.file n) (pruneSymlinks ts)
  | FsForest.cons (FsTree.dir n c) ts =>
    FsForest.cons (FsTree.dir n (pruneSymlinks c)) (pruneSymlinks ts)

theorem scan_pruneSymlinks : ∀ (p : String) (f : FsForest),
    scanDirForSvgFiles p (pruneSymlinks f) = scanDirForSvgFiles p f
  | _, FsForest.nil => rfl
  | p, FsForest.cons (FsTree.file n) ts => by
    simp [pruneSymlinks, scanDirForSvgFiles, scan_pruneSymlinks p ts]
  | p, FsForest.cons (FsTree.symlink n t) ts => by
    simp [pruneSymlinks, scanDirForSvgFiles, scan_pruneSymlinks p ts]
  | p, FsForest.cons (FsTree.dir n c) ts => by
    simp [pruneSymlinks, scanDirForSvgFiles, scan_pruneSymlinks (jsPathJoin p n) c,
      scan_pruneSymlinks p ts]

/-- C10: the scanner stats entries with `lstat`, so a symbolic link is
never treated as a directory: scanning a listing that contains a symlink
behaves exactly as if the link were a plain file of the same name
(first conjunct), and more generally the scan result is unchanged when
every symlink is stripped of its target — no file reachable only through
a symlinked subdirectory ever appears in the result, and the recursion
descends only through real directories, so it is a total (terminating)
function of the finite listing tree even when symlink targets form
cycles (second conjunct; totality is inherent in the Lean definition of
`scanDirForSvgFiles`, which is compiled by structural recursion on the
listing). -/
theorem scanDirForSvgFiles_lstat_no_follow :
    (∀ (p n target : String) (rest : FsForest),
      scanDirForSvgFiles p (FsForest.cons (FsTree.symlink n target) rest) =
        scanDirForSvgFiles p (FsForest.cons (FsTree.file n) rest)) ∧
    (∀ (p : String) (f : FsForest),
      scanDirForSvgFiles p (pruneSymlinks f) = scanDirForSvgFiles p f) :=
  ⟨fun _ _ _ _ => rfl, scan_pruneSymlinks⟩

theorem foldl_copyAttrs_absent :
    ∀ (l : List (String × String)) (a0 : List (String × String)) (k : String),
      k ∉ l.map Prod.fst → assocGet (l.foldl copyAttrsStep a0) k = assocGet a0 k
  | [], _, _, _ => rfl
  | (k1, v1) :: rest, a0, k, h => by
    have hk1 : k ≠ k1 := by
      intro he
      exact h (by simp [he])
    have hrest : k ∉ rest.map Prod.fst := by
      intro hm
      exact h (by simp [hm])
    rw [List.foldl_cons, foldl_copyAttrs_absent rest _ k hrest]
    unfold copyAttrsStep
    by_cases hwh : k1 ≠ "width" ∧ k1 ≠ "height"
    · rw [if_pos hwh]
      exact assocGet_set_other a0 k1 k v1 hk1
    · rw [if_neg hwh]

theorem foldl_copyAttrs_present :
    ∀ (l : List (String × String)) (a0 : List (String × String)) (k : String) (v : String),
      (l.map Prod.fst).Nodup → k ≠ "width" → k ≠ "height" →
      assocGet l k = some v → assocGet (l.foldl copyAttrsStep a0) k = some v
  | [], _, _, _, _, _, _, h => by simp [assocGet] at h
  | (k1, v1) :: rest, a0, k, v, hnd, hw, hh, h => by
    by_cases hk1 : k1 = k
    · subst hk1
      have hv : v1 = v := by
        simp [assocGet] at h
        exact h
      subst hv
      have hnd' : (k1 :: rest.map Prod.fst).Nodup := by simpa using hnd
      have hnotrest : k1 ∉ rest.map Prod.fst := (List.nodup_cons.mp hnd').1
      rw [List.foldl_cons, foldl_copyAttrs_absent rest _ k1 hnotrest]
      unfold copyAttrsStep
      rw [if_pos (And.intro hw hh)]
      exact assocGet_set_same a0 k1 v1
    · have hb : (k1 == k) = false := by simp [hk1]
      have hrest : assocGet rest k = some v := by
        simpa [assocGet, hb] using h
      have hnd' : (k1 :: rest.map Prod.fst).Nodup := by simpa using hnd
      have hndrest : (rest.map Prod.fst).Nodup := (List.nodup_cons.mp hnd').2
      rw [List.foldl_cons]
      exact foldl_copyAttrs_present rest _ k v hndrest hw hh hrest

theorem foldl_copyAttrs_no_wh :
    ∀ (l : List (String × String)) (a0 : List (String × String)) (k : String),
      (k = "width" ∨ k = "height") → assocGet a0 k = none →
      assocGet (l.foldl copyAttrsStep a0) k = none
  | [], _, _, _, h => h
  | (k1, v1) :: rest, a0, k, hk, h => by
    rw [List.foldl_cons]
    refine foldl_copyAttrs_no_wh rest _ k hk ?_
    unfold copyAttrsStep
    by_cases hwh : k1 ≠ "width" ∧ k1 ≠ "height"
    · have hk1 : k ≠ k1 := by
        intro he
        rcases hk with h1 | h1 <;> rw [he] at h1 <;> simp [h1] at hwh
      rw [if_pos hwh, assocGet_set_other a0 k1 k v1 hk1]
      exact h
    · rw [if_neg hwh]
      exact h

/-- C1: for every icon processed by the Sprite Builder (with the unique
attribute keys cheerio's attribute object guarantees), the constructed
symbol carries a `viewBox` equal to the source root's declared one, or
exactly `0 0 24 24` when absent; it carries every source-root attribute
other than `width`/`height` with its original value (in particular
`fill`); it carries no `width` and no `height` attribute; and its children
are exactly the source root's child nodes. -/
theorem buildSymbol_spec (symbolId filePath : String) (svg : ParsedSvg)
    (hnodup : (svg.attrs.map Prod.fst).Nodup) :
    assocGet (buildSymbol symbolId filePath svg).attrs "viewBox" =
      some ((assocGet svg.attrs "viewBox").getD "0 0 24 24") ∧
    (∀ (k v : String), k ≠ "width" → k ≠ "height" → assocGet svg.attrs k = some v →
      assocGet (buildSymbol symbolId filePath svg).attrs k = some v) ∧
    assocGet (buildSymbol symbolId filePath svg).attrs "width" = none ∧
    assocGet (buildSymbol symbolId filePath svg).attrs "height" = none ∧
    (buildSymbol symbolId filePath svg).childrenHtml = svg.childrenHtml := by
  have ha0vb : ∀ vb : String,
      assocGet (assocSet (assocSet [] "id" (generateSymbolId symbolId filePath)) "viewBox" vb)
        "viewBox" = some vb := by
    intro vb
    exact assocGet_set_same _ "viewBox" vb
  have ha0w : ∀ vb : String,
      assocGet (assocSet (assocSet [] "id" (generateSymbolId symbolId filePath)) "viewBox" vb)
        "width" = none := by
    intro vb
    rw [assocGet_set_other _ "viewBox" "width" vb (by decide),
      assocGet_set_other _ "id" "width" _ (by decide)]
    rfl
  have ha0h : ∀ vb : String,
      assocGet (assocSet (assocSet [] "id" (generateSymbolId symbolId filePath)) "viewBox" vb)
        "height" = none := by
    intro vb
    rw [assocGet_set_other _ "viewBox" "height" vb (by decide),
      assocGet_set_other _ "id" "height" _ (by decide)]
    rfl
  refine ⟨?_, ?_, ?_, ?_, rfl⟩
  · cases hvb : assocGet svg.attrs "viewBox" with
    | none =>
      have hnm : "viewBox" ∉ svg.attrs.map Prod.fst := assocGet_none_not_mem _ _ hvb
      simp only [buildSymbol]
      rw [foldl_copyAttrs_absent svg.attrs _ "viewBox" hnm, hvb]
      exact ha0vb _
    | some vb =>
      simp only [buildSymbol]
      rw [hvb]
      exact foldl_copyAttrs_present svg.attrs _ "viewBox" vb hnodup (by decide) (by decide) hvb
  · intro k v hw hh hk
    simp only [buildSymbol]
    exact foldl_copyAttrs_present svg.attrs _ k v hnodup hw hh hk
  · simp only [buildSymbol]
    exact foldl_copyAttrs_no_wh svg.attrs _ "width" (Or.inl rfl) (ha0w _)
  · simp only [buildSymbol]
    exact foldl_copyAttrs_no_wh svg.attrs _ "height" (Or.inr rfl) (ha0h _)

/-- The spec's round-trip example icon: declared viewBox `0 0 32 32`,
a `fill="red"` theming attribute, and `width`/`height` display attributes
on the root. -/
def c1IconSvg : ParsedSvg :=
  { attrs := [("viewBox", "0 0 32 32"), ("fill", "red"), ("width", "24"), ("height", "24")],
    childrenHtml := "<path d=\"M4 4h24v24H4z\"/>", defsHtml := none }

/-- Witness for C1 at the spec's round-trip example icon. -/
theorem buildSymbol_spec_witness :
    assocGet (buildSymbol "[dir]-[name]" "icons/nav/home.svg" c1IconSvg).attrs "viewBox" =
      some "0 0 32 32" ∧
    assocGet (buildSymbol "[dir]-[name]" "icons/nav/home.svg" c1IconSvg).attrs "fill" =
      some "red" ∧
    assocGet (buildSymbol "[dir]-[name]" "icons/nav/home.svg" c1IconSvg).attrs "width" = none ∧
    assocGet (buildSymbol "[dir]-[name]" "icons/nav/home.svg" c1IconSvg).attrs "height" = none ∧
    (buildSymbol "[dir]-[name]" "icons/nav/home.svg" c1IconSvg).childrenHtml =
      "<path d=\"M4 4h24v24H4z\"/>" := by
  have h := buildSymbol_spec "[dir]-[name]" "icons/nav/home.svg" c1IconSvg (by decide)
  exact ⟨h.1.trans (by decide), h.2.1 "fill" "red" (by decide) (by decide) (by decide),
    h.2.2.1, h.2.2.2.1, h.2.2.2.2.trans (by decide)⟩

/-- The fragment a file contributes to the symbols string, read off a
cache state: nothing when the per-file pipeline fails, otherwise the
cached fragment. -/
def cachedFragment (fs : IconFs) (cache : List (String × String)) (f : String) : String :=
  match fs.read f with
  | none => ""
  | some _ => (assocGet cache f).getD ""

/-- Concatenation of a list of strings, in order. -/
def concatList : List String → String
  | [] => ""
  | s :: rest => s ++ concatList rest

theorem processFile_read_none (cfg : Config) (fs : IconFs) (st : GenState) (sym f : String)
    (h : fs.read f = none) :
    processFile cfg fs (st, sym) f =
      ({ st with logs := logError st.logs ("Error reading or processing SVG file: " ++ f) },
        sym) := by
  simp [processFile, h]

theorem processFile_hit (cfg : Config) (fs : IconFs) (st : GenState) (sym f : String)
    (svg : ParsedSvg) (frag : String) (h : fs.read f = some svg)
    (hc : assocGet st.svgCache f = some frag) :
    processFile cfg fs (st, sym) f = (st, sym ++ frag) := by
  simp [processFile, h, hc]

theorem processFile_miss (cfg : Config) (fs : IconFs) (st : GenState) (sym f : String)
    (svg : ParsedSvg) (h : fs.read f = some svg) (hc : assocGet st.svgCache f = none) :
    processFile cfg fs (st, sym) f =
      ({ st with
          svgCache := st.svgCache ++ [(f, serializeSymbol (buildSymbol cfg.symbolId f svg))],
          collectedDefs := match svg.defsHtml with
            | some d => st.collectedDefs ++ d
            | none => st.collectedDefs },
        sym ++ serializeSymbol (buildSymbol cfg.symbolId f svg)) := by
  simp [processFile, h, hc]

theorem processFile_cache_mono (cfg : Config) (fs : IconFs) (st : GenState)
    (sym f k v : String) (h : assocGet st.svgCache k = some v) :
    assocGet (processFile cfg fs (st, sym) f).1.svgCache k = some v := by
  cases hr : fs.read f with
  | none =>
    rw [processFile_read_none cfg fs st sym f hr]
    simpa using h
  | some svg =>
    cases hc : assocGet st.svgCache f with
    | some frag =>
      rw [processFile_hit cfg fs st sym f svg frag hr hc]
      simpa using h
    | none =>
      rw [processFile_miss cfg fs st sym f svg hr hc]
      exact assocGet_append_some _ _ k v h

theorem processFile_self_present (cfg : Config) (fs : IconFs) (st : GenState)
    (sym f : String) (svg : ParsedSvg) (hr : fs.read f = some svg) :
    (assocGet (processFile cfg fs (st, sym) f).1.svgCache f).isSome = true := by
  cases hc : assocGet st.svgCache f with
  | some frag =>
    rw [processFile_hit cfg fs st sym f svg frag hr hc]
    simp [hc]
  | none =>
    rw [processFile_miss cfg fs st sym f svg hr hc]
    have : assocGet
        (st.svgCache ++ [(f, serializeSymbol (buildSymbol cfg.symbolId f svg))]) f =
        some (serializeSymbol (buildSymbol cfg.symbolId f svg)) := by
      rw [assocGet_append_none _ _ f hc]
      simp [assocGet]
    simpa using congrArg Option.isSome this

theorem processFile_sym_eq (cfg : Config) (fs : IconFs) (st : GenState) (sym f : String)
    (C : List (String × String))
    (hmono : ∀ (k v : String),
      assocGet (processFile cfg fs (st, sym) f).1.svgCache k = some v →
        assocGet C k = some v) :
    (processFile cfg fs (st, sym) f).2 = sym ++ cachedFragment fs C f := by
  cases hr : fs.read f with
  | none =>
    rw [processFile_read_none cfg fs st sym f hr]
    simp [cachedFragment, hr, String.append_empty]
  | some svg =>
    cases hc : assocGet st.svgCache f with
    | some frag =>
      have hself : assocGet (processFile cfg fs (st, sym) f).1.svgCache f = some frag := by
        rw [processFile_hit cfg fs st sym f svg frag hr hc]
        simpa using hc
      have hC : assocGet C f = some frag := hmono f frag hself
      rw [processFile_hit cfg fs st sym f svg frag hr hc]
      simp [cachedFragment, hr, hC]
    | none =>
      have hself : assocGet (processFile cfg fs (st, sym) f).1.svgCache f =
          some (serializeSymbol (buildSymbol cfg.symbolId f svg)) := by
        rw [processFile_miss cfg fs st sym f svg hr hc]
        simp only []
        rw [assocGet_append_none _ _ f hc]
        simp [assocGet]
      have hC := hmono f _ hself
      rw [processFile_miss cfg fs st sym f svg hr hc]
      simp [cachedFragment, hr, hC]

theorem genPass_fold_spec (cfg : Config) (fs : IconFs) :
    ∀ (files : List String) (st : GenState) (sym : String),
      (∀ (k v : String), assocGet st.svgCache k = some v →
        assocGet (files.foldl (processFile cfg fs) (st, sym)).1.svgCache k = some v) ∧
      (∀ f ∈ files, (fs.read f).isSome = true →
        (assocGet (files.foldl (processFile cfg fs) (st, sym)).1.svgCache f).isSome = true) ∧
      (files.foldl (processFile cfg fs) (st, sym)).2 =
        sym ++ concatList (files.map
          (cachedFragment fs (files.foldl (processFile cfg fs) (st, sym)).1.svgCache))
  | [], st, sym => by
    refine ⟨fun k v h => h, by simp, ?_⟩
    simp [concatList, String.append_empty]
  | f :: rest, st, sym => by
    have hstep : (f :: rest).foldl (processFile cfg fs) (st, sym) =
        rest.foldl (processFile cfg fs) (processFile cfg fs (st, sym) f) := by
      rw [List.foldl_cons]
    have ih := genPass_fold_spec cfg fs rest (processFile cfg fs (st, sym) f).1
      (processFile cfg fs (st, sym) f).2
    rw [hstep]
    refine ⟨?_, ?_, ?_⟩
    · intro k v h
      exact ih.1 k v (processFile_cache_mono cfg fs st sym f k v h)
    · intro f' hf' hread
      rcases List.mem_cons.mp hf' with he | hm
      · subst he
        cases hr : fs.read f' with
        | none => rw [hr] at hread; simp at hread
        | some svg =>
          have hp := processFile_self_present cfg fs st sym f' svg hr
          obtain ⟨v, hv⟩ := Option.isSome_iff_exists.mp hp
          have := ih.1 f' v hv
          simp [this]
      · exact ih.2.1 f' hm hread
    · have hsym : (processFile cfg fs (st, sym) f).2 =
          sym ++ cachedFragment fs
            (rest.foldl (processFile cfg fs) (processFile cfg fs (st, sym) f)).1.svgCache f :=
        processFile_sym_eq cfg fs st sym f _ (fun k v h => ih.1 k v h)
      rw [List.map_cons, concatList, ← String.append_assoc, ← hsym]
      exact ih.2.2

theorem genPass_fold_stable (cfg : Config) (fs : IconFs) :
    ∀ (files : List String) (st : GenState) (sym : String),
      (∀ f ∈ files, (fs.read f).isSome = true → (assocGet st.svgCache f).isSome = true) →
      (files.foldl (processFile cfg fs) (st, sym)).1.svgCache = st.svgCache ∧
      (files.foldl (processFile cfg fs) (st, sym)).1.collectedDefs = st.collectedDefs ∧
      (files.foldl (processFile cfg fs) (st, sym)).2 =
        sym ++ concatList (files.map (cachedFragment fs st.svgCache))
  | [], st, sym, _ => by
    refine ⟨rfl, rfl, ?_⟩
    simp [concatList, String.append_empty]
  | f :: rest, st, sym, h => by
    rw [List.foldl_cons]
    cases hr : fs.read f with
    | none =>
      have ih := genPass_fold_stable cfg fs rest
        { st with logs := logError st.logs ("Error reading or processing SVG file: " ++ f) }
        sym (fun f' hm hs => h f' (by simp [hm]) hs)
      rw [processFile_read_none cfg fs st sym f hr]
      refine ⟨ih.1, ih.2.1, ?_⟩
      rw [ih.2.2, List.map_cons, concatList]
      simp [cachedFragment, hr, String.empty_append]
    | some svg =>
      have hpres : (assocGet st.svgCache f).isSome = true :=
        h f (by simp) (by simp [hr])
      obtain ⟨frag, hfrag⟩ := Option.isSome_iff_exists.mp hpres
      have ih := genPass_fold_stable cfg fs rest st (sym ++ frag)
        (fun f' hm hs => h f' (by simp [hm]) hs)
      rw [processFile_hit cfg fs st sym f svg frag hr hfrag]
      refine ⟨ih.1, ih.2.1, ?_⟩
      rw [ih.2.2, List.map_cons, concatList, ← String.append_assoc]
      congr 1
      simp [cachedFragment, hr, hfrag]

theorem generateSvgSprite_state (cfg : Config) (fs : IconFs) (st0 : GenState) :
    (generateSvgSprite cfg fs st0).1.svgCache = (genPass cfg fs st0).1.svgCache ∧
    (generateSvgSprite cfg fs st0).1.collectedDefs = (genPass cfg fs st0).1.collectedDefs := by
  constructor
  · simp only [generateSvgSprite]
    split
    · rfl
    · rfl
  · simp only [generateSvgSprite]
    split
    · rfl
    · rfl

theorem generateSvgSprite_doc (cfg : Config) (fs : IconFs) (st0 : GenState) :
    (generateSvgSprite cfg fs st0).2 =
      (if (genPass cfg fs st0).2 = "" then spriteHeader cfg.svgDomId ++ "</svg>"
       else spriteHeader cfg.svgDomId ++
         (if (genPass cfg fs st0).1.collectedDefs = "" then ""
          else "<defs>" ++ (genPass cfg fs st0).1.collectedDefs ++ "</defs>") ++
         (genPass cfg fs st0).2 ++ "</svg>") := by
  simp only [generateSvgSprite]
  split
  · rfl
  · rfl

theorem writeSpriteToFile_skip (wf vb : Bool) (disk : DiskFs)
    (publicDir fileName content : String)
    (h : assocGet disk.files (jsPathJoin publicDir fileName) = some (jsTrim content ++ "\n")) :
    (writeSpriteToFile wf vb disk publicDir fileName content).1 = disk ∧
    (writeSpriteToFile wf vb disk publicDir fileName content).2.2 = WriteOutcome.skipped := by
  simp [writeSpriteToFile, h]

theorem writeSpriteToFile_establishes (vb : Bool) (disk : DiskFs)
    (publicDir fileName content : String) :
    assocGet (writeSpriteToFile false vb disk publicDir fileName content).1.files
        (jsPathJoin publicDir fileName) =
      some (jsTrim content ++ "\n") := by
  by_cases hx : assocGet disk.files (jsPathJoin publicDir fileName) =
      some (jsTrim content ++ "\n")
  · rw [(writeSpriteToFile_skip false vb disk publicDir fileName content hx).1]
    exact hx
  · cases hm : assocGet disk.files (jsPathJoin publicDir fileName) with
    | some e =>
      have he : ¬ e = jsTrim content ++ "\n" := fun hq => hx (by rw [hm, hq])
      simp only [writeSpriteToFile, hm, if_neg he, Bool.false_eq_true, if_false]
      exact assocGet_set_same _ _ _
    | none =>
      simp only [writeSpriteToFile, hm, Bool.false_eq_true, if_false]
      exact assocGet_set_same _ _ _

theorem genPass_second_pass (cfg : Config) (fs : IconFs) (st0 : GenState) :
    (genPass cfg fs (generateSvgSprite cfg fs st0).1).2 = (genPass cfg fs st0).2 ∧
    (genPass cfg fs (generateSvgSprite cfg fs st0).1).1.collectedDefs =
      (genPass cfg fs st0).1.collectedDefs := by
  have hstate := generateSvgSprite_state cfg fs st0
  have hspec := genPass_fold_spec cfg fs (allSvgFiles cfg fs) st0 ""
  have hpresent : ∀ f ∈ allSvgFiles cfg fs, (fs.read f).isSome = true →
      (assocGet (generateSvgSprite cfg fs st0).1.svgCache f).isSome = true := by
    intro f hm hread
    rw [hstate.1]
    exact hspec.2.1 f hm hread
  have hstable := genPass_fold_stable cfg fs (allSvgFiles cfg fs)
    (generateSvgSprite cfg fs st0).1 "" hpresent
  constructor
  · show ((allSvgFiles cfg fs).foldl (processFile cfg fs)
      ((generateSvgSprite cfg fs st0).1, "")).2 = (genPass cfg fs st0).2
    rw [hstable.2.2, hstate.1]
    exact hspec.2.2.symm
  · show ((allSvgFiles cfg fs).foldl (processFile cfg fs)
      ((generateSvgSprite cfg fs st0).1, "")).1.collectedDefs =
      (genPass cfg fs st0).1.collectedDefs
    rw [hstable.2.1, hstate.2]

/-- C3: with the filesystem unchanged between the two passes (the same
`IconFs`, embodying the stable directory-listing order), running the
generation pass twice yields byte-identical sprite documents, and a
persistence call performed after the first pass's write finds the
destination content already equal to the normalized new content and
returns without writing (whatever the verbosity flags, and even if the
underlying write primitives would fail on the second call). -/
theorem generateSvgSprite_idempotent_and_write_skip
    (cfg : Config) (fs : IconFs) (st0 : GenState) (disk : DiskFs)
    (publicDir fileName : String) (vb1 vb2 wf2 : Bool) :
    (generateSvgSprite cfg fs (generateSvgSprite cfg fs st0).1).2 =
      (generateSvgSprite cfg fs st0).2 ∧
    (writeSpriteToFile wf2 vb2
        (writeSpriteToFile false vb1 disk publicDir fileName
          (generateSvgSprite cfg fs st0).2).1
        publicDir fileName (generateSvgSprite cfg fs (generateSvgSprite cfg fs st0).1).2).1 =
      (writeSpriteToFile false vb1 disk publicDir fileName
        (generateSvgSprite cfg fs st0).2).1 ∧
    (writeSpriteToFile wf2 vb2
        (writeSpriteToFile false vb1 disk publicDir fileName
          (generateSvgSprite cfg fs st0).2).1
        publicDir fileName (generateSvgSprite cfg fs (generateSvgSprite cfg fs st0).1).2).2.2 =
      WriteOutcome.skipped := by
  have hsecond := genPass_second_pass cfg fs st0
  have hdoc : (generateSvgSprite cfg fs (generateSvgSprite cfg fs st0).1).2 =
      (generateSvgSprite cfg fs st0).2 := by
    rw [generateSvgSprite_doc cfg fs (generateSvgSprite cfg fs st0).1,
      generateSvgSprite_doc cfg fs st0, hsecond.1, hsecond.2]
  refine ⟨hdoc, ?_, ?_⟩
  · rw [hdoc]
    exact (writeSpriteToFile_skip wf2 vb2 _ publicDir fileName _
      (writeSpriteToFile_establishes vb1 disk publicDir fileName _)).1
  · rw [hdoc]
    exact (writeSpriteToFile_skip wf2 vb2 _ publicDir fileName _
      (writeSpriteToFile_establishes vb1 disk publicDir fileName _)).2

/-- Configuration used for the identifier-collision scenario: two icon
roots whose trees both contain `nav/home.svg`, so both files generate the
symbol identifier `nav-home`. -/
def c4Config : Config :=
  { iconDirs := ["icons", "other"], symbolId := "[dir]-[name]", svgDomId := "svg-sprite",
    inject := none, fileName := none, verbose := true }

/-- First colliding icon: declared viewBox `0 0 10 10`. -/
def c4Svg1 : ParsedSvg :=
  { attrs := [("viewBox", "0 0 10 10")], childrenHtml := "<path d=\"A\"/>", defsHtml := none }

/-- Second colliding icon: no declared viewBox. -/
def c4Svg2 : ParsedSvg :=
  { attrs := [], childrenHtml := "<path d=\"B\"/>", defsHtml := none }

/-- Filesystem for the collision scenario. -/
def c4Fs : IconFs :=
  { listing :=
      [("icons",
        FsForest.cons (FsTree.dir "nav" (FsForest.cons (FsTree.file "home.svg") FsForest.nil))
          FsForest.nil),
       ("other",
        FsForest.cons (FsTree.dir "nav" (FsForest.cons (FsTree.file "home.svg") FsForest.nil))
          FsForest.nil)],
    read := fun p =>
      if p = "icons/nav/home.svg" then some c4Svg1
      else if p = "other/nav/home.svg" then some c4Svg2
      else none }

set_option maxRecDepth 8000 in
/-- C4 counterexample: two distinct files whose generated symbol
identifiers collide (`nav-home`) do NOT overwrite each other — the Sprite
Cache is keyed by file path, so after the pass both entries are present
and the Sprite Document contains both fragments (with a duplicated `id`),
the earlier-processed one included; it is false that only the
later-processed fragment appears. -/
theorem spriteCache_collision_counterexample :
    generateSymbolId "[dir]-[name]" "icons/nav/home.svg" =
      generateSymbolId "[dir]-[name]" "other/nav/home.svg" ∧
    assocGet (generateSvgSprite c4Config c4Fs
        { svgCache := [], collectedDefs := "", logs := [] }).1.svgCache
        "icons/nav/home.svg" =
      some "<symbol id=\"nav-home\" viewBox=\"0 0 10 10\"><path d=\"A\"/></symbol>" ∧
    assocGet (generateSvgSprite c4Config c4Fs
        { svgCache := [], collectedDefs := "", logs := [] }).1.svgCache
        "other/nav/home.svg" =
      some "<symbol id=\"nav-home\" viewBox=\"0 0 24 24\"><path d=\"B\"/></symbol>" ∧
    (generateSvgSprite c4Config c4Fs { svgCache := [], collectedDefs := "", logs := [] }).2 =
      spriteHeader "svg-sprite" ++
        "<symbol id=\"nav-home\" viewBox=\"0 0 10 10\"><path d=\"A\"/></symbol>" ++
        "<symbol id=\"nav-home\" viewBox=\"0 0 24 24\"><path d=\"B\"/></symbol>" ++
        "</svg>" := by decide

/-- C4 (amended): the Sprite Cache is keyed by the file path, not by the
generated symbol identifier, so two distinct files — whether or not their
identifiers collide — occupy two distinct cache entries and BOTH
serialized fragments appear in the symbols string, in processing order;
nothing is overwritten. -/
theorem spriteCache_collision_keeps_both (cfg : Config) (fs : IconFs)
    (p1 p2 : String) (s1 s2 : ParsedSvg)
    (hfiles : allSvgFiles cfg fs = [p1, p2]) (hne : p1 ≠ p2)
    (h1 : fs.read p1 = some s1) (h2 : fs.read p2 = some s2) :
    assocGet (genPass cfg fs { svgCache := [], collectedDefs := "", logs := [] }).1.svgCache
        p1 = some (serializeSymbol (buildSymbol cfg.symbolId p1 s1)) ∧
    assocGet (genPass cfg fs { svgCache := [], collectedDefs := "", logs := [] }).1.svgCache
        p2 = some (serializeSymbol (buildSymbol cfg.symbolId p2 s2)) ∧
    (genPass cfg fs { svgCache := [], collectedDefs := "", logs := [] }).2 =
      serializeSymbol (buildSymbol cfg.symbolId p1 s1) ++
        serializeSymbol (buildSymbol cfg.symbolId p2 s2) := by
  have hb21 : (p1 == p2) = false := by simp [hne]
  unfold genPass
  rw [hfiles]
  simp only [List.foldl_cons, List.foldl_nil]
  rw [processFile_miss cfg fs _ "" p1 s1 h1 (by simp [assocGet])]
  rw [processFile_miss cfg fs _ _ p2 s2 h2 (by simp [assocGet, hb21])]
  refine ⟨?_, ?_, ?_⟩
  · simp [assocGet]
  · simp [assocGet, hb21]
  · rw [String.empty_append]

set_option maxRecDepth 8000 in
/-- Witness for the amended C4 statement at the concrete collision
scenario. -/
theorem spriteCache_collision_keeps_both_witness :
    assocGet (genPass c4Config c4Fs
        { svgCache := [], collectedDefs := "", logs := [] }).1.svgCache
        "icons/nav/home.svg" =
      some (serializeSymbol (buildSymbol c4Config.symbolId "icons/nav/home.svg" c4Svg1)) ∧
    assocGet (genPass c4Config c4Fs
        { svgCache := [], collectedDefs := "", logs := [] }).1.svgCache
        "other/nav/home.svg" =
      some (serializeSymbol (buildSymbol c4Config.symbolId "other/nav/home.svg" c4Svg2)) ∧
    (genPass c4Config c4Fs { svgCache := [], collectedDefs := "", logs := [] }).2 =
      serializeSymbol (buildSymbol c4Config.symbolId "icons/nav/home.svg" c4Svg1) ++
        serializeSymbol (buildSymbol c4Config.symbolId "other/nav/home.svg" c4Svg2) :=
  spriteCache_collision_keeps_both c4Config c4Fs "icons/nav/home.svg" "other/nav/home.svg"
    c4Svg1 c4Svg2 (by decide) (by decide) (by decide) (by decide)

/-- C7: when the pass produces no symbols output (no file discovered, or
every file failed), generation does not fail: it returns the well-formed
empty root container — the fixed namespace, the hiding style and the
configured identifier, with no defs section and no symbol fragments — and
the warning is recorded on the logging channel; `logWarn` is not gated on
the verbosity flag (which is quantified over through `cfg.verbose`). -/
theorem generateSvgSprite_empty_container (cfg : Config) (fs : IconFs) (st0 : GenState)
    (h : (genPass cfg fs st0).2 = "") :
    (generateSvgSprite cfg fs st0).2 = spriteHeader cfg.svgDomId ++ "</svg>" ∧
    LogEvent.warn "No SVG symbols were generated." ∈ (generateSvgSprite cfg fs st0).1.logs := by
  constructor
  · rw [generateSvgSprite_doc cfg fs st0, if_pos h]
  · simp only [generateSvgSprite]
    rw [if_pos h]
    simp [logWarn]

/-- Configuration with an icon root whose listing is absent (nothing is
discovered) and verbosity switched off, to exhibit that the warning is
logged regardless. -/
def c7Config : Config :=
  { iconDirs := [], symbolId := "[dir]-[name]", svgDomId := "empty-sprite",
    inject := none, fileName := some "sprite.svg", verbose := false }

/-- Filesystem with no listings at all. -/
def c7Fs : IconFs := { listing := [], read := fun _ => none }

/-- Witness for C7: zero discovered icon files, verbosity off. -/
theorem generateSvgSprite_empty_container_witness :
    (generateSvgSprite c7Config c7Fs { svgCache := [], collectedDefs := "", logs := [] }).2 =
      spriteHeader c7Config.svgDomId ++ "</svg>" ∧
    LogEvent.warn "No SVG symbols were generated." ∈
      (generateSvgSprite c7Config c7Fs
        { svgCache := [], collectedDefs := "", logs := [] }).1.logs :=
  generateSvgSprite_empty_container c7Config c7Fs
    { svgCache := [], collectedDefs := "", logs := [] } (by decide)

theorem jsTrim_getLast_not_space (s : String) (c : Char)
    (h : (jsTrim s).data.getLast? = some c) : isJsSpace c = false := by
  unfold jsTrim at h
  rw [List.getLast?_reverse] at h
  exact head?_dropWhile_false _ c h

theorem mem_mkdirRecursive (disk : DiskFs) (dir d : String) (hd : d ∈ dirPrefixes dir) :
    d ∈ (mkdirRecursive disk dir).dirs := by
  by_cases hmem : d ∈ disk.dirs
  · simp [mkdirRecursive, hmem]
  · simp [mkdirRecursive, List.mem_filter, hd, hmem]

theorem writeSpriteToFile_writes (vb : Bool) (disk : DiskFs)
    (publicDir fileName content : String)
    (hne : assocGet disk.files (jsPathJoin publicDir fileName) ≠
      some (jsTrim content ++ "\n")) :
    writeSpriteToFile false vb disk publicDir fileName content =
      ({ mkdirRecursive disk publicDir with
          files := assocSet (mkdirRecursive disk publicDir).files
            (jsPathJoin publicDir fileName) (jsTrim content ++ "\n") },
        logInfo vb [] ("SVG sprite saved in " ++ publicDir), WriteOutcome.wrote) := by
  cases hm : assocGet disk.files (jsPathJoin publicDir fileName) with
  | some e =>
    have he : ¬ e = jsTrim content ++ "\n" := fun hq => hne (by rw [hm, hq])
    simp only [writeSpriteToFile, hm, if_neg he, Bool.false_eq_true, if_false]
  | none =>
    simp only [writeSpriteToFile, hm, Bool.false_eq_true, if_false]

theorem writeSpriteToFile_fails (vb : Bool) (disk : DiskFs)
    (publicDir fileName content : String)
    (hne : assocGet disk.files (jsPathJoin publicDir fileName) ≠
      some (jsTrim content ++ "\n")) :
    writeSpriteToFile true vb disk publicDir fileName content =
      (disk, logError [] ("Error writing sprite file: " ++ jsPathJoin publicDir fileName),
        WriteOutcome.failed) := by
  cases hm : assocGet disk.files (jsPathJoin publicDir fileName) with
  | some e =>
    have he : ¬ e = jsTrim content ++ "\n" := fun hq => hne (by rw [hm, hq])
    simp only [writeSpriteToFile, hm, if_neg he]
    rw [if_pos trivial]
  | none =>
    simp only [writeSpriteToFile, hm]
    rw [if_pos trivial]

/-- C8: persistence normalizes the sprite to `trim() + '\n'` — the result
ends in exactly one line terminator (its body never ends in another one);
it skips the write entirely when the destination already holds exactly the
normalized content; when it writes, the destination directory and all its
intermediate prefixes are created first and the file then holds the
normalized content; and a thrown mkdir/write failure is caught: the
function still returns (it is total), the disk is untouched and an error
is recorded — no exception propagates to the caller. -/
theorem writeSpriteToFile_spec (disk : DiskFs) (publicDir fileName content : String)
    (vb wf : Bool) :
    ((jsTrim content ++ "\n").data = (jsTrim content).data ++ ['\n'] ∧
      (∀ c : Char, (jsTrim content).data.getLast? = some c → c ≠ '\n')) ∧
    (assocGet disk.files (jsPathJoin publicDir fileName) = some (jsTrim content ++ "\n") →
      (writeSpriteToFile wf vb disk publicDir fileName content).1 = disk ∧
      (writeSpriteToFile wf vb disk publicDir fileName content).2.2 =
        WriteOutcome.skipped) ∧
    (assocGet disk.files (jsPathJoin publicDir fileName) ≠ some (jsTrim content ++ "\n") →
      wf = false →
      (writeSpriteToFile wf vb disk publicDir fileName content).2.2 = WriteOutcome.wrote ∧
      assocGet (writeSpriteToFile wf vb disk publicDir fileName content).1.files
        (jsPathJoin publicDir fileName) = some (jsTrim content ++ "\n") ∧
      (∀ d ∈ dirPrefixes publicDir,
        d ∈ (writeSpriteToFile wf vb disk publicDir fileName content).1.dirs)) ∧
    (assocGet disk.files (jsPathJoin publicDir fileName) ≠ some (jsTrim content ++ "\n") →
      wf = true →
      (writeSpriteToFile wf vb disk publicDir fileName content).1 = disk ∧
      (writeSpriteToFile wf vb disk publicDir fileName content).2.2 =
        WriteOutcome.failed ∧
      (writeSpriteToFile wf vb disk publicDir fileName content).2.1 =
        logError [] ("Error writing sprite file: " ++ jsPathJoin publicDir fileName)) := by
  refine ⟨⟨?_, ?_⟩, ?_, ?_, ?_⟩
  · rw [String.data_append]
  · intro c h he
    have hw := jsTrim_getLast_not_space content c h
    rw [he] at hw
    simp [isJsSpace] at hw
  · intro h
    exact writeSpriteToFile_skip wf vb disk publicDir fileName content h
  · intro hne hwf
    subst hwf
    rw [writeSpriteToFile_writes vb disk publicDir fileName content hne]
    refine ⟨rfl, assocGet_set_same _ _ _, ?_⟩
    intro d hd
    exact mem_mkdirRecursive disk publicDir d hd
  · intro hne hwf
    subst hwf
    rw [writeSpriteToFile_fails vb disk publicDir fileName content hne]
    exact ⟨rfl, rfl, rfl⟩

/-- Witness for C8 at concrete inputs: an empty disk (write path with
directory creation), then a pre-populated disk (skip path), then a
failing write (caught and logged). -/
theorem writeSpriteToFile_spec_witness :
    ((writeSpriteToFile false true { dirs := [], files := [] } "dist/assets" "sprite.svg"
        "<svg></svg>").2.2 = WriteOutcome.wrote ∧
      assocGet (writeSpriteToFile false true { dirs := [], files := [] } "dist/assets"
          "sprite.svg" "<svg></svg>").1.files (jsPathJoin "dist/assets" "sprite.svg") =
        some (jsTrim "<svg></svg>" ++ "\n") ∧
      (∀ d ∈ dirPrefixes "dist/assets",
        d ∈ (writeSpriteToFile false true { dirs := [], files := [] } "dist/assets"
          "sprite.svg" "<svg></svg>").1.dirs)) ∧
    ((writeSpriteToFile true true
        { dirs := [], files := [("dist/assets/sprite.svg", "<svg></svg>\n")] }
        "dist/assets" "sprite.svg" "<svg></svg>").1 =
      { dirs := [], files := [("dist/assets/sprite.svg", "<svg></svg>\n")] } ∧
      (writeSpriteToFile true true
        { dirs := [], files := [("dist/assets/sprite.svg", "<svg></svg>\n")] }
        "dist/assets" "sprite.svg" "<svg></svg>").2.2 = WriteOutcome.skipped) ∧
    ((writeSpriteToFile true true { dirs := [], files := [] } "dist/assets" "sprite.svg"
        "<svg></svg>").1 = { dirs := [], files := [] } ∧
      (writeSpriteToFile true true { dirs := [], files := [] } "dist/assets" "sprite.svg"
        "<svg></svg>").2.2 = WriteOutcome.failed ∧
      (writeSpriteToFile true true { dirs := [], files := [] } "dist/assets" "sprite.svg"
        "<svg></svg>").2.1 =
        logError [] ("Error writing sprite file: " ++ jsPathJoin "dist/assets" "sprite.svg")) :=
  ⟨(writeSpriteToFile_spec { dirs := [], files := [] } "dist/assets" "sprite.svg"
      "<svg></svg>" true false).2.2.1 (by decide) rfl,
    ⟨((writeSpriteToFile_spec
        { dirs := [], files := [("dist/assets/sprite.svg", "<svg></svg>\n")] }
        "dist/assets" "sprite.svg" "<svg></svg>" true true).2.1 (by decide)).1,
      ((writeSpriteToFile_spec
        { dirs := [], files := [("dist/assets/sprite.svg", "<svg></svg>\n")] }
        "dist/assets" "sprite.svg" "<svg></svg>" true true).2.1 (by decide)).2⟩,
    (writeSpriteToFile_spec { dirs := [], files := [] } "dist/assets" "sprite.svg"
      "<svg></svg>" true true).2.2.2 (by decide) rfl⟩

theorem debounceCount_burst :
    ∀ (ts : List Nat), ts ≠ [] → burstWithin 100 ts = true → debounceCount 100 ts = 1
  | [], h, _ => absurd rfl h
  | [_], _, _ => rfl
  | a :: b :: rest, _, hb => by
    have hlt : b - a < 100 := by
      by_cases h : b - a < 100
      · exact h
      · rw [burstWithin, if_neg h] at hb
        exact absurd hb (by simp)
    have hrest : burstWithin 100 (b :: rest) = true := by
      rw [burstWithin, if_pos hlt] at hb
      exact hb
    rw [debounceCount, if_pos hlt, debounceCount_burst (b :: rest) (by simp) hrest]

/-- C9: during a watch session, a debounced burst of qualifying events —
a non-empty list of event times each following its predecessor within the
100-unit debounce window — fires the change handler exactly once; the
handler clears the entire Sprite Cache and Definitions Pool before
rebuilding (the rebuild starts from the empty cache, whatever stale
entries the previous state held), the resulting sprite document is the
one generated from the current filesystem, and — with the virtual module
present in the module graph — exactly one downstream full-reload
notification is sent. -/
theorem watch_debounce_single_regeneration (cfg : Config) (fs : IconFs)
    (eventTimes : List Nat) (s0 : SessionState)
    (hne : eventTimes ≠ []) (hburst : burstWithin 100 eventTimes = true) :
    debounceCount 100 eventTimes = 1 ∧
    (runDevSession cfg fs true eventTimes s0).regenerations = s0.regenerations + 1 ∧
    (runDevSession cfg fs true eventTimes s0).reloads = s0.reloads + 1 ∧
    (runDevSession cfg fs true eventTimes s0).sprite =
      (generateSvgSprite cfg fs
        { svgCache := [], collectedDefs := "", logs := s0.gen.logs }).2 ∧
    (runDevSession cfg fs true eventTimes s0).gen.svgCache =
      (generateSvgSprite cfg fs
        { svgCache := [], collectedDefs := "", logs := s0.gen.logs }).1.svgCache := by
  have hcount := debounceCount_burst eventTimes hne hburst
  unfold runDevSession
  rw [hcount]
  unfold runHandlers runHandlers
  unfold handleDevChange
  refine ⟨rfl, rfl, rfl, rfl, rfl⟩

/-- Five rapid modifications, 10 time units apart. -/
def c9Burst : List Nat := [0, 10, 20, 30, 40]

/-- A generation state carrying stale cache entries and a stale
definitions pool from an earlier pass. -/
def c9StaleGen : GenState :=
  { svgCache := [("old/icon.svg", "<symbol id=\"stale\"></symbol>")],
    collectedDefs := "<lineargradient id=\"g\"></lineargradient>", logs := [] }

/-- A session state carrying the stale generation state and a stale
sprite from an earlier pass. -/
def c9Stale : SessionState :=
  { gen := c9StaleGen, sprite := "stale-sprite", regenerations := 0, reloads := 0 }

/-- Witness for C9: the five-modification burst on a concrete session. -/
theorem watch_debounce_single_regeneration_witness :
    debounceCount 100 c9Burst = 1 ∧
    (runDevSession c7Config c7Fs true c9Burst c9Stale).regenerations =
      c9Stale.regenerations + 1 ∧
    (runDevSession c7Config c7Fs true c9Burst c9Stale).reloads = c9Stale.reloads + 1 ∧
    (runDevSession c7Config c7Fs true c9Burst c9Stale).sprite =
      (generateSvgSprite c7Config c7Fs
        { svgCache := [], collectedDefs := "", logs := c9Stale.gen.logs }).2 ∧
    (runDevSession c7Config c7Fs true c9Burst c9Stale).gen.svgCache =
      (generateSvgSprite c7Config c7Fs
        { svgCache := [], collectedDefs := "", logs := c9Stale.gen.logs }).1.svgCache :=
  watch_debounce_single_regeneration c7Config c7Fs c9Burst c9Stale (by decide) (by decide)
